import Mathlib

/-!
Verification development for the hls4ml tutorial workflow
(`Section_4_hls4ml.ipynb` plus the checked-in Vivado utilization report
`files/section2_hls4ml_prj_1/vivado_synth.rpt`).

The notebook is a linear pipeline: load a QKeras model, derive an hls4ml
configuration dictionary, apply manual overrides, set the process-wide
rounding/saturation optimizer state, convert and compile, evaluate the
fixed-point emulation against the floating-point model, synthesize, and
read the synthesis report.  We embed the data model and each operation
shallowly and prove the specification's properties about them.
-/

namespace S4

/-- A value stored in the configuration dictionary: a string descriptor
(precision, strategy, mode) or an integer (reuse factor). -/
inductive CfgValue where
  | str (s : String)
  | int (n : Nat)
  deriving DecidableEq, Repr

/-- A scope's settings: an ordered association list from setting name to
value, mirroring a Python `dict` with string keys (insertion ordered). -/
abbrev Settings := List (String × CfgValue)

/-- The flat view of the Configuration Dictionary used by the spec's data
model: a mapping from scope name (`"Model"`, or a specific layer name) to
a mapping of setting name to value. -/
abbrev ConfigDict := List (String × Settings)

/-- Lookup in an insertion-ordered association list (Python `d[k]` read:
first binding wins; `none` models a `KeyError`). -/
def lookupKey : List (String × α) → String → Option α
  | [], _ => none
  | (k, v) :: rest, key => if key = k then some v else lookupKey rest key

/-- Replace the value bound to an existing key, keeping insertion order;
a key that is not present is left alone (callers only use this after a
successful lookup). -/
def setKey : List (String × α) → String → α → List (String × α)
  | [], _, _ => []
  | (k, v) :: rest, key, val =>
    if key = k then (k, val) :: rest else (k, v) :: setKey rest key val

/-- Python `d[key] = val` on a `dict`: update the binding if the key is
present, append a new binding otherwise. -/
def pyDictSet : List (String × α) → String → α → List (String × α)
  | [], key, val => [(key, val)]
  | (k, v) :: rest, key, val =>
    if key = k then (k, val) :: rest else (k, v) :: pyDictSet rest key val

/-- The error taxonomy of the workflow specification (section 7). -/
inductive ErrorKind where
  | LoadError
  | UnknownConfigTarget
  | ConversionError
  | BuildError
  | ReportNotFoundError
  deriving DecidableEq, Repr

/-- One explicit override of the Config Builder: it addresses a scope
(`"Model"` or a layer name) and a setting key inside that scope. -/
structure Override where
  scope : String
  key : String
  value : CfgValue
  deriving DecidableEq, Repr

/-- The value read from the Configuration Dictionary at a (scope, key)
pair, when both exist. -/
def getValue (d : ConfigDict) (scope key : String) : Option CfgValue :=
  match lookupKey d scope with
  | none => none
  | some settings => lookupKey settings key

/-- Modelled from the spec: the override-application step of the Config
Builder (section 4.2).  The notebook only shows the caller side (plain
`cfg[...] = ...` assignments on existing targets); the validated merge
with its `UnknownConfigTarget` error kind is part of the specified
contract and is not implemented under `src/`.  Per the spec, an override
addressing a scope or key absent from the auto-derived dictionary is a
caller error reported as `UnknownConfigTarget`; a valid override is
last-write-wins on its (scope, key) pair. -/
def applyOverride (d : ConfigDict) (o : Override) : Except ErrorKind ConfigDict :=
  match lookupKey d o.scope with
  | none => Except.error ErrorKind.UnknownConfigTarget
  | some settings =>
    match lookupKey settings o.key with
    | none => Except.error ErrorKind.UnknownConfigTarget
    | some _ => Except.ok (setKey d o.scope (setKey settings o.key o.value))

/-- Modelled from the spec: applying an override sequence in order,
failing fast on the first invalid override (section 7 propagation
policy). -/
def applyOverrides (d : ConfigDict) : List Override → Except ErrorKind ConfigDict
  | [] => Except.ok d
  | o :: os =>
    match applyOverride d o with
    | Except.error e => Except.error e
    | Except.ok d' => applyOverrides d' os

/-- The Config Builder state after attempting one override: on failure
the dictionary is kept exactly as it was and the error is reported. -/
def applyOverrideOrKeep (d : ConfigDict) (o : Override) : ConfigDict × Option ErrorKind :=
  match applyOverride d o with
  | Except.error e => (d, some e)
  | Except.ok d' => (d', none)

/-- The value written by the last override in the sequence that touches
the given (scope, key) pair, if any (later overrides win). -/
def lastWrite : List Override → String → String → Option CfgValue
  | [], _, _ => none
  | o :: os, scope, key =>
    match lastWrite os scope key with
    | some v => some v
    | none => if o.scope = scope ∧ o.key = key then some o.value else none

/-! ### The notebook's concrete configuration writes

`config_from_keras_model(model, granularity='name')` returns a nested
dictionary with a top-level `'Model'` scope and a `'LayerName'` scope
holding one settings dictionary per named layer.  The notebook then
mutates it with plain Python assignments. -/

/-- The shape of the notebook's hls4ml configuration dictionary:
the `'Model'` sub-dictionary and the `'LayerName'` sub-dictionary
(one settings dictionary per layer name). -/
structure KerasCfg where
  model : Settings
  layerName : List (String × Settings)
  deriving DecidableEq, Repr

/-- One configuration write as the notebook performs it:
`cfg['Model'] = {...}` replaces the whole Model sub-dictionary;
`cfg['LayerName'][layer][key] = v` looks up the layer's settings and
assigns into them. -/
inductive CfgWrite where
  | setModel (settings : Settings)
  | setLayerKey (layer key : String) (v : CfgValue)
  deriving DecidableEq, Repr

/-- Semantics of one notebook configuration write.  A
`cfg['LayerName'][layer]` lookup on a missing layer is a Python
`KeyError`, modelled as `none`; the assignment into an existing layer's
settings is Python insert-or-update. -/
def CfgWrite.apply (c : KerasCfg) : CfgWrite → Option KerasCfg
  | CfgWrite.setModel s => some { c with model := s }
  | CfgWrite.setLayerKey layer key v =>
    match lookupKey c.layerName layer with
    | none => none
    | some settings =>
      some { c with layerName := setKey c.layerName layer (pyDictSet settings key v) }

/-- Applying a list of notebook configuration writes in order. -/
def applyCfgWrites (c : KerasCfg) : List CfgWrite → Option KerasCfg
  | [] => some c
  | w :: ws =>
    match CfgWrite.apply c w with
    | none => none
    | some c' => applyCfgWrites c' ws

/-- The override sequence of the notebook, exactly as written in the
configuration cell, in order. -/
def cfgOverrides : List CfgWrite :=
  [CfgWrite.setModel
      [("Precision", CfgValue.str "ap_fixed<16,6>"),
       ("ReuseFactor", CfgValue.int 1),
       ("Strategy", CfgValue.str "Resource")],
   CfgWrite.setLayerKey "q_dense" "ReuseFactor" (CfgValue.int 112),
   CfgWrite.setLayerKey "q_dense_1" "Strategy" (CfgValue.str "Latency"),
   CfgWrite.setLayerKey "activation_2" "Strategy" (CfgValue.str "Stable")]

/-! ### The notebook as a sequential workflow -/

/-- The process-wide optimizer state
`hls4ml.model.optimizer.OutputRoundingSaturationMode`: converter
configuration living outside the Configuration Dictionary. -/
structure OptimizerGlobals where
  layers : List String
  rounding_mode : Option String
  saturation_mode : Option String
  deriving DecidableEq, Repr

/-- The initial optimizer state, before the notebook touches it. -/
def initOptimizer : OptimizerGlobals :=
  { layers := [], rounding_mode := none, saturation_mode := none }

/-- One top-level statement of the notebook, in the order the cells
execute. -/
inductive NotebookStep where
  | loadModel
  | deriveConfig
  | printCfg
  | cfgWrite (w : CfgWrite)
  | setOptLayers (ls : List String)
  | setOptRounding (m : String)
  | setOptSaturation (m : String)
  | convert
  | compileModel
  | getDataset
  | predictHls
  | predictKeras
  | reportAccuracy
  | buildProject (csim synth vsynth exportIp : Bool)
  | readReport
  deriving DecidableEq, Repr

/-- The notebook's statements in execution order (cells 0 through 16). -/
def notebookSteps : List NotebookStep :=
  [NotebookStep.loadModel,
   NotebookStep.deriveConfig,
   NotebookStep.printCfg,
   NotebookStep.cfgWrite (CfgWrite.setModel
      [("Precision", CfgValue.str "ap_fixed<16,6>"),
       ("ReuseFactor", CfgValue.int 1),
       ("Strategy", CfgValue.str "Resource")]),
   NotebookStep.cfgWrite (CfgWrite.setLayerKey "q_dense" "ReuseFactor" (CfgValue.int 112)),
   NotebookStep.cfgWrite (CfgWrite.setLayerKey "q_dense_1" "Strategy" (CfgValue.str "Latency")),
   NotebookStep.cfgWrite (CfgWrite.setLayerKey "activation_2" "Strategy" (CfgValue.str "Stable")),
   NotebookStep.printCfg,
   NotebookStep.setOptLayers ["Activation"],
   NotebookStep.setOptRounding "AP_RND",
   NotebookStep.setOptSaturation "AP_SAT",
   NotebookStep.convert,
   NotebookStep.compileModel,
   NotebookStep.getDataset,
   NotebookStep.predictHls,
   NotebookStep.predictKeras,
   NotebookStep.reportAccuracy,
   NotebookStep.buildProject false true true false,
   NotebookStep.readReport]

/-- The workflow state threaded through the notebook's statements. -/
structure NotebookState where
  cfg : Option KerasCfg
  opt : OptimizerGlobals
  convertedWith : Option (OptimizerGlobals × Option KerasCfg)
  buildFlags : Option (Bool × Bool × Bool × Bool)
  deriving DecidableEq, Repr

/-- The state before any cell runs. -/
def initState : NotebookState :=
  { cfg := none, opt := initOptimizer, convertedWith := none, buildFlags := none }

/-- Effect of one notebook statement on the workflow state.  The
auto-derived configuration is an external input (`auto`); conversion
snapshots both the optimizer globals and the configuration dictionary in
effect at that moment. -/
def NotebookStep.run (auto : KerasCfg) (st : NotebookState) : NotebookStep → NotebookState
  | NotebookStep.loadModel => st
  | NotebookStep.deriveConfig => { st with cfg := some auto }
  | NotebookStep.printCfg => st
  | NotebookStep.cfgWrite w => { st with cfg := st.cfg.bind (fun c => CfgWrite.apply c w) }
  | NotebookStep.setOptLayers ls => { st with opt := { st.opt with layers := ls } }
  | NotebookStep.setOptRounding m => { st with opt := { st.opt with rounding_mode := some m } }
  | NotebookStep.setOptSaturation m => { st with opt := { st.opt with saturation_mode := some m } }
  | NotebookStep.convert => { st with convertedWith := some (st.opt, st.cfg) }
  | NotebookStep.compileModel => st
  | NotebookStep.getDataset => st
  | NotebookStep.predictHls => st
  | NotebookStep.predictKeras => st
  | NotebookStep.reportAccuracy => st
  | NotebookStep.buildProject c s v e => { st with buildFlags := some (c, s, v, e) }
  | NotebookStep.readReport => st

/-- Running a list of notebook statements from a state. -/
def runSteps (auto : KerasCfg) (st : NotebookState) : List NotebookStep → NotebookState
  | [] => st
  | s :: rest => runSteps auto (NotebookStep.run auto st s) rest

/-- The final workflow state of the notebook, given the auto-derived
configuration returned by `config_from_keras_model`. -/
def runNotebook (auto : KerasCfg) : NotebookState :=
  runSteps auto initState notebookSteps

/-- Recognizer for the synthesis invocation step. -/
def NotebookStep.isBuild : NotebookStep → Bool
  | NotebookStep.buildProject _ _ _ _ => true
  | _ => false

/-- Recognizer for the conversion step. -/
def NotebookStep.isConvert : NotebookStep → Bool
  | NotebookStep.convert => true
  | _ => false

/-- Recognizer for the statements that set the process-wide
rounding/saturation optimizer state. -/
def NotebookStep.isOptWrite : NotebookStep → Bool
  | NotebookStep.setOptLayers _ => true
  | NotebookStep.setOptRounding _ => true
  | NotebookStep.setOptSaturation _ => true
  | _ => false

/-! ### The Evaluator (cells 10 and 12) -/

/-- Accumulator for `argmax`: index of the first maximal element seen so
far. -/
def argmaxAux : List Rat → Nat → Nat → Rat → Nat
  | [], _, best, _ => best
  | x :: xs, i, best, bestVal =>
    if bestVal < x then argmaxAux xs (i + 1) i x else argmaxAux xs (i + 1) best bestVal

/-- `np.argmax` over one probability (or one-hot) vector: the index of
the first occurrence of the maximum (0 on an empty vector). -/
def argmax : List Rat → Nat
  | [] => 0
  | x :: xs => argmaxAux xs 1 0 x

/-- `sklearn.metrics.accuracy_score` on integer class labels: the
fraction of positions where prediction equals truth. -/
def accuracy_score (yTrue yPred : List Nat) : Rat :=
  (((yTrue.zip yPred).countP (fun p => p.1 == p.2) : Nat) : Rat) / (yTrue.length : Rat)

/-- The Evaluator exactly as the notebook runs it: the fixed-point
emulation (`hls_model.predict`) and the floating-point model
(`model.predict`) are both applied to the same `x_test`, and each
prediction array is reduced to an accuracy score against the same
one-hot `y_test` by row-wise `argmax`.  The first component is the
QKeras (floating-point) accuracy, the second the hls4ml (fixed-point)
accuracy, matching the two printed lines. -/
def evaluate (hlsPredict modelPredict : α → List Rat)
    (xTest : List α) (yTest : List (List Rat)) : Rat × Rat :=
  let yHls := xTest.map hlsPredict
  let yQke := xTest.map modelPredict
  (accuracy_score (yTest.map argmax) (yQke.map argmax),
   accuracy_score (yTest.map argmax) (yHls.map argmax))

/-- The evaluation stage as a pipeline stage: it computes the two
accuracy scalars and never raises, whatever the two accuracies are
(the comparison is not a gate). -/
def evalStage (hlsPredict modelPredict : α → List Rat)
    (xTest : List α) (yTest : List (List Rat)) : Except ErrorKind (Rat × Rat) :=
  Except.ok (evaluate hlsPredict modelPredict xTest yTest)

/-! ### `get_train_test_set` (cell 0) -/

/-- `tensorflow.keras.utils.to_categorical(label, numClasses)`: the
one-hot row for `label` over `numClasses` classes. -/
def to_categorical (label numClasses : Nat) : List Rat :=
  (List.range numClasses).map (fun i => if i = label then 1 else 0)

/-- The `x / 256.0` scaling applied to one raw pixel (a `uint8`
grayscale value). -/
def scalePixel (p : Nat) : Rat := (p : Rat) / 256

/-- Elementwise `x / 256.0` on one 2-D image. -/
def scaleImage (img : List (List Nat)) : List (List Rat) :=
  img.map (fun row => row.map scalePixel)

/-- The raw MNIST data as `mnist.load_data()` returns it: 2-D `uint8`
images and integer labels, for the train and test splits. -/
structure RawMnist where
  xTrain : List (List (List Nat))
  yTrain : List Nat
  xTest : List (List (List Nat))
  yTest : List Nat

/-- `get_train_test_set` from the notebook: divide every pixel by 256.0,
flatten each image to a one-dimensional feature vector
(`reshape(shape[0], -1)`), and one-hot encode the labels over 10
classes.  Returns `((x_train, y_train), (x_test, y_test))`. -/
def get_train_test_set (raw : RawMnist) :
    (List (List Rat) × List (List Rat)) × (List (List Rat) × List (List Rat)) :=
  let xTrain := (raw.xTrain.map scaleImage).map List.flatten
  let xTest := (raw.xTest.map scaleImage).map List.flatten
  let yTrain := raw.yTrain.map (fun l => to_categorical l 10)
  let yTest := raw.yTest.map (fun l => to_categorical l 10)
  ((xTrain, yTrain), (xTest, yTest))

/-! ### `print_dict` (cell 0) -/

/-- A Python value as `print_dict` sees it: a nested dictionary or any
other value (rendered through `str`). -/
inductive PyVal where
  | scalar (s : String)
  | dict (entries : List (String × PyVal))
  deriving Repr

/-- Python `s * n` on a string with an `int` factor: the empty string
whenever the factor is zero or negative. -/
def pyStrRepeat (s : String) (n : Int) : String :=
  String.join (List.replicate n.toNat s)

/-- `print_dict` from the notebook, as the list of printed lines.  A
nested dictionary prints its key alone and recurses with `indent + 1`;
any other value prints on one line with the column padding
`' ' * (20 - len(key) - 2 * indent)`. -/
def print_dict : List (String × PyVal) → Nat → List String
  | [], _ => []
  | (key, PyVal.scalar v) :: rest, indent =>
    (pyStrRepeat "  " (Int.ofNat indent) ++ key ++ ":" ++
      pyStrRepeat " " (20 - (key.length : Int) - 2 * (indent : Int)) ++ v)
      :: print_dict rest indent
  | (key, PyVal.dict sub) :: rest, indent =>
    (pyStrRepeat "  " (Int.ofNat indent) ++ key)
      :: (print_dict sub (indent + 1) ++ print_dict rest indent)

/-- The number of dictionary entries `print_dict` visits (each entry at
every nesting level counted once). -/
def entryCount : List (String × PyVal) → Nat
  | [] => 0
  | (_, PyVal.scalar _) :: rest => 1 + entryCount rest
  | (_, PyVal.dict sub) :: rest => 1 + entryCount sub + entryCount rest

/-! ### The synthesis report fixture and its parsing

`files/section2_hls4ml_prj_1/vivado_synth.rpt` is a fixed-width text
table.  The characters below are transcribed verbatim from the fixture.
The parser itself (`hls4ml.report.read_vivado_report`) is external
library code, so row parsing is modelled from the spec's description of
the format. -/

/-- Split a character list on every occurrence of a separator. -/
def splitOnChar (sep : Char) : List Char → List (List Char)
  | [] => [[]]
  | c :: cs =>
    match splitOnChar sep cs with
    | [] => if c = sep then [[], []] else [[c]]
    | h :: t => if c = sep then [] :: h :: t else (c :: h) :: t

/-- Strip leading and trailing spaces from a cell. -/
def trimSpaces (cs : List Char) : List Char :=
  ((cs.dropWhile (fun c => c = ' ')).reverse.dropWhile (fun c => c = ' ')).reverse

/-- Decimal digit value of a character, if it is a digit. -/
def digitVal : Char → Option Nat
  | c => if c.isDigit then some (c.toNat - 48) else none

/-- Accumulating decimal reader over a digit list. -/
def parseNatAux : List Char → Nat → Option Nat
  | [], acc => some acc
  | c :: cs, acc =>
    match digitVal c with
    | none => none
    | some d => parseNatAux cs (acc * 10 + d)

/-- Read a nonempty all-digit cell as a natural number. -/
def parseNatCells (cs : List Char) : Option Nat :=
  match cs with
  | [] => none
  | _ => parseNatAux cs 0

/-- Read a utilization percentage cell (`"2.94"` style, two decimal
places) as an exact count of hundredths of a percent. -/
def parseCenti (cs : List Char) : Option Nat :=
  match splitOnChar '.' cs with
  | [intPart, fracPart] =>
    match parseNatCells intPart, parseNatCells fracPart with
    | some i, some f => if fracPart.length = 2 then some (i * 100 + f) else none
    | _, _ => none
  | _ => none

/-- One fully populated resource row of a utilization section:
Used / Fixed / Available / Util% (the percentage kept exact, in
hundredths of a percent). -/
structure UtilRow where
  siteType : String
  used : Nat
  fixed : Nat
  available : Nat
  utilCentiPercent : Nat
  deriving DecidableEq, Repr

/-- Modelled from the spec: the report parser (the Reporter of section
4.6, realized by `hls4ml.report.read_vivado_report`, which is not part
of this repository) reads one row of a fixed-width `|`-separated
utilization table and recovers the exact Used / Fixed / Available /
Util% figures.  Rows whose numeric cells are not all populated (and the
`+---+` borders and header rows) parse to `none`. -/
def parseUtilRow (line : String) : Option UtilRow :=
  match (splitOnChar '|' line.toList).map trimSpaces with
  | [[], name, used, fixed, avail, util, []] =>
    match parseNatCells used, parseNatCells fixed, parseNatCells avail, parseCenti util with
    | some u, some fx, some av, some ut =>
      some { siteType := String.mk name, used := u, fixed := fx,
             available := av, utilCentiPercent := ut }
    | _, _, _, _ => none
  | _ => none

/-- The data row for CLB LUTs, transcribed verbatim from line 38 of the
fixture report. -/
def clbLutsLine : String :=
"| CLB LUTs*                  | 50888 |     0 |   1728000 |  2.94 |"

/-- All data rows of section `1. CLB Logic` of the fixture report
(lines 38 to 49), transcribed verbatim. -/
def clbLogicLines : List String :=
["| CLB LUTs*                  | 50888 |     0 |   1728000 |  2.94 |",
 "|   LUT as Logic             | 50536 |     0 |   1728000 |  2.92 |",
 "|   LUT as Memory            |   352 |     0 |    791040 |  0.04 |",
 "|     LUT as Distributed RAM |     0 |     0 |           |       |",
 "|     LUT as Shift Register  |   352 |     0 |           |       |",
 "| CLB Registers              | 71920 |     0 |   3456000 |  2.08 |",
 "|   Register as Flip Flop    | 71920 |     0 |   3456000 |  2.08 |",
 "|   Register as Latch        |     0 |     0 |   3456000 |  0.00 |",
 "| CARRY8                     |  1693 |     0 |    216000 |  0.78 |",
 "| F7 Muxes                   |  2027 |     0 |    864000 |  0.23 |",
 "| F8 Muxes                   |   795 |     0 |    432000 |  0.18 |",
 "| F9 Muxes                   |     0 |     0 |    216000 |  0.00 |"]

/-- The numbered table of contents of the fixture report (lines 16 to
30), transcribed verbatim: section number and section title. -/
def tableOfContents : List (String × String) :=
[("1", "CLB Logic"),
 ("1.1", "Summary of Registers by Type"),
 ("2", "BLOCKRAM"),
 ("3", "ARITHMETIC"),
 ("4", "I/O"),
 ("5", "CLOCK"),
 ("6", "ADVANCED"),
 ("7", "CONFIGURATION"),
 ("8", "Primitives"),
 ("9", "Black Boxes"),
 ("10", "Instantiated Netlists"),
 ("11", "SLR Connectivity"),
 ("12", "SLR Connectivity Matrix"),
 ("13", "SLR CLB Logic and Dedicated Block Utilization"),
 ("14", "SLR IO Utilization")]

/-- The column headings of each section's table in the fixture report,
transcribed from the header row of each table (section 11's first
column heading is blank in the fixture). -/
def sectionColumns : List (String × List String) :=
[("CLB Logic", ["Site Type", "Used", "Fixed", "Available", "Util%"]),
 ("Summary of Registers by Type", ["Total", "Clock Enable", "Synchronous", "Asynchronous"]),
 ("BLOCKRAM", ["Site Type", "Used", "Fixed", "Available", "Util%"]),
 ("ARITHMETIC", ["Site Type", "Used", "Fixed", "Available", "Util%"]),
 ("I/O", ["Site Type", "Used", "Fixed", "Available", "Util%"]),
 ("CLOCK", ["Site Type", "Used", "Fixed", "Available", "Util%"]),
 ("ADVANCED", ["Site Type", "Used", "Fixed", "Available", "Util%"]),
 ("CONFIGURATION", ["Site Type", "Used", "Fixed", "Available", "Util%"]),
 ("Primitives", ["Ref Name", "Used", "Functional Category"]),
 ("Black Boxes", ["Ref Name", "Used"]),
 ("Instantiated Netlists", ["Ref Name", "Used"]),
 ("SLR Connectivity", ["", "Used", "Fixed", "Available", "Util%"]),
 ("SLR Connectivity Matrix", ["FROM \\ TO", "SLR3", "SLR2", "SLR1", "SLR0"]),
 ("SLR CLB Logic and Dedicated Block Utilization",
    ["Site Type", "SLR0", "SLR1", "SLR2", "SLR3", "SLR0 %", "SLR1 %", "SLR2 %", "SLR3 %"]),
 ("SLR IO Utilization",
    ["SLR Index", "Used IOBs", "(%)IOBs", "Used IPADs", "(%)IPADs", "Used OPADs", "(%)OPADs", "GTs"])]

/-- Whether a column list carries the Used / Fixed / Available / Util%
utilization columns. -/
def hasUtilColumns (cols : List String) : Bool :=
  cols.contains "Used" && cols.contains "Fixed" &&
    cols.contains "Available" && cols.contains "Util%"

/-- The configuration write performed by a notebook statement, if it is
one. -/
def NotebookStep.cfgWriteOf : NotebookStep → Option CfgWrite
  | NotebookStep.cfgWrite w => some w
  | _ => none

/-- Reading one setting of one layer out of the notebook's nested
configuration dictionary (`cfg['LayerName'][layer][key]`). -/
def lookupLayerKey (c : KerasCfg) (layer key : String) : Option CfgValue :=
  (lookupKey c.layerName layer).bind (fun s => lookupKey s key)

/-! ## Theorems -/

/-- Lookup after `setKey`: the updated key reads back the new value when
it was present (and stays absent otherwise); other keys are untouched. -/
theorem lookupKey_setKey (l : List (String × α)) (k k' : String) (v : α) :
    lookupKey (setKey l k v) k' =
      if k' = k then (lookupKey l k).map (fun _ => v) else lookupKey l k' := by
  induction l with
  | nil =>
    by_cases h : k' = k <;> simp [setKey, lookupKey, h]
  | cons p rest ih =>
    obtain ⟨a, b⟩ := p
    by_cases hk : k = a
    · subst hk
      by_cases h : k' = k <;> simp [setKey, lookupKey, h]
    · by_cases h : k' = a
      · subst h
        simp [setKey, lookupKey, hk, Ne.symm hk]
      · simp [setKey, lookupKey, hk, h, ih]

/-- Lookup after a Python dictionary assignment: the assigned key reads
back the new value unconditionally; other keys are untouched. -/
theorem lookupKey_pyDictSet (l : List (String × α)) (k k' : String) (v : α) :
    lookupKey (pyDictSet l k v) k' = if k' = k then some v else lookupKey l k' := by
  induction l with
  | nil =>
    by_cases h : k' = k <;> simp [pyDictSet, lookupKey, h]
  | cons p rest ih =>
    obtain ⟨a, b⟩ := p
    by_cases hk : k = a
    · subst hk
      by_cases h : k' = k <;> simp [pyDictSet, lookupKey, h]
    · by_cases h : k' = a
      · subst h
        simp [pyDictSet, lookupKey, hk, Ne.symm hk]
      · simp [pyDictSet, lookupKey, hk, h, ih]

/-- A successful override writes its value at its own (scope, key). -/
theorem applyOverride_ok_self {d d' : ConfigDict} {o : Override}
    (h : applyOverride d o = Except.ok d') :
    getValue d' o.scope o.key = some o.value := by
  cases hs : lookupKey d o.scope with
  | none => simp [applyOverride, hs] at h
  | some settings =>
    cases hk : lookupKey settings o.key with
    | none => simp [applyOverride, hs, hk] at h
    | some w =>
      simp only [applyOverride, hs, hk, Except.ok.injEq] at h
      subst h
      simp [getValue, lookupKey_setKey, hs, hk]

/-- A successful override leaves every other (scope, key) pair exactly
as it was. -/
theorem applyOverride_ok_other {d d' : ConfigDict} {o : Override} {scope key : String}
    (h : applyOverride d o = Except.ok d') (hne : ¬(scope = o.scope ∧ key = o.key)) :
    getValue d' scope key = getValue d scope key := by
  cases hs : lookupKey d o.scope with
  | none => simp [applyOverride, hs] at h
  | some settings =>
    cases hk : lookupKey settings o.key with
    | none => simp [applyOverride, hs, hk] at h
    | some w =>
      simp only [applyOverride, hs, hk, Except.ok.injEq] at h
      subst h
      by_cases hsc : scope = o.scope
      · subst hsc
        have hkey : key ≠ o.key := fun hE => hne ⟨rfl, hE⟩
        simp [getValue, lookupKey_setKey, hs, hkey]
      · simp [getValue, lookupKey_setKey, hsc, hs]

/-- Claim C1: for every auto-derived Configuration Dictionary, applying
an override that addresses a scope or key absent from it raises
`UnknownConfigTarget`, and the Config Builder's dictionary afterwards is
exactly the dictionary it had before — the error is reported, never
silently ignored. -/
theorem c1_unknown_override_reported (d : ConfigDict) (o : Override)
    (h : getValue d o.scope o.key = none) :
    applyOverrideOrKeep d o = (d, some ErrorKind.UnknownConfigTarget) := by
  cases hs : lookupKey d o.scope with
  | none => simp [applyOverrideOrKeep, applyOverride, hs]
  | some settings =>
    have hk : lookupKey settings o.key = none := by
      simpa [getValue, hs] using h
    simp [applyOverrideOrKeep, applyOverride, hs, hk]

/-- Witness for C1: overriding the missing layer scope `"q_dense_9"` of
a concrete auto-derived dictionary reports `UnknownConfigTarget` and
keeps the dictionary unchanged. -/
theorem c1_unknown_override_reported_witness :
    getValue [("Model", [("Precision", CfgValue.str "ap_fixed<16,6>")])]
        "q_dense_9" "ReuseFactor" = none ∧
    applyOverrideOrKeep [("Model", [("Precision", CfgValue.str "ap_fixed<16,6>")])]
        { scope := "q_dense_9", key := "ReuseFactor", value := CfgValue.int 2 } =
      ([("Model", [("Precision", CfgValue.str "ap_fixed<16,6>")])],
        some ErrorKind.UnknownConfigTarget) :=
  ⟨by decide,
   c1_unknown_override_reported
     [("Model", [("Precision", CfgValue.str "ap_fixed<16,6>")])]
     { scope := "q_dense_9", key := "ReuseFactor", value := CfgValue.int 2 }
     (by decide)⟩

/-- Claim C2: applying a valid override sequence to an auto-derived
Configuration Dictionary is last-write-wins — every (scope, key) pair
touched by some override ends at the last touching override's value, and
every pair not touched reads exactly as in the auto-derived baseline. -/
theorem c2_overrides_last_write_wins (os : List Override) (d d' : ConfigDict)
    (h : applyOverrides d os = Except.ok d') (scope key : String) :
    (∀ v, lastWrite os scope key = some v → getValue d' scope key = some v) ∧
    (lastWrite os scope key = none → getValue d' scope key = getValue d scope key) := by
  induction os generalizing d with
  | nil =>
    simp only [applyOverrides, Except.ok.injEq] at h
    subst h
    exact ⟨fun v hv => by simp [lastWrite] at hv, fun _ => rfl⟩
  | cons o rest ih =>
    cases ha : applyOverride d o with
    | error e => simp [applyOverrides, ha] at h
    | ok d₁ =>
      simp only [applyOverrides, ha] at h
      obtain ⟨ih1, ih2⟩ := ih d₁ h
      constructor
      · intro v hv
        unfold lastWrite at hv
        cases hr : lastWrite rest scope key with
        | some w =>
          rw [hr] at hv
          simp only [Option.some.injEq] at hv
          exact hv ▸ ih1 w hr
        | none =>
          rw [hr] at hv
          by_cases hm : o.scope = scope ∧ o.key = key
          · rw [if_pos hm] at hv
            simp only [Option.some.injEq] at hv
            obtain ⟨h1, h2⟩ := hm
            subst h1; subst h2; subst hv
            rw [ih2 hr]
            exact applyOverride_ok_self ha
          · rw [if_neg hm] at hv
            exact absurd hv (by simp)
      · intro hv
        unfold lastWrite at hv
        cases hr : lastWrite rest scope key with
        | some w => rw [hr] at hv; simp at hv
        | none =>
          rw [hr] at hv
          by_cases hm : o.scope = scope ∧ o.key = key
          · rw [if_pos hm] at hv; simp at hv
          · rw [ih2 hr]
            exact applyOverride_ok_other ha
              (fun hE => hm ⟨hE.1.symm, hE.2.symm⟩)

/-- Witness for C2: on a concrete two-scope dictionary, a sequence that
writes `ReuseFactor` in the `"Model"` scope twice ends at the second
value, and the untouched `"q_dense"` scope reads as in the baseline. -/
theorem c2_overrides_last_write_wins_witness :
    getValue [("Model", [("ReuseFactor", CfgValue.int 7)]),
              ("q_dense", [("ReuseFactor", CfgValue.int 2)])]
        "Model" "ReuseFactor" = some (CfgValue.int 7) ∧
    getValue [("Model", [("ReuseFactor", CfgValue.int 7)]),
              ("q_dense", [("ReuseFactor", CfgValue.int 2)])]
        "q_dense" "ReuseFactor" =
      getValue [("Model", [("ReuseFactor", CfgValue.int 1)]),
                ("q_dense", [("ReuseFactor", CfgValue.int 2)])]
        "q_dense" "ReuseFactor" :=
  ⟨(c2_overrides_last_write_wins
      [{ scope := "Model", key := "ReuseFactor", value := CfgValue.int 5 },
       { scope := "Model", key := "ReuseFactor", value := CfgValue.int 7 }]
      [("Model", [("ReuseFactor", CfgValue.int 1)]),
       ("q_dense", [("ReuseFactor", CfgValue.int 2)])]
      [("Model", [("ReuseFactor", CfgValue.int 7)]),
       ("q_dense", [("ReuseFactor", CfgValue.int 2)])]
      (by rfl) "Model" "ReuseFactor").1 (CfgValue.int 7) (by decide),
   (c2_overrides_last_write_wins
      [{ scope := "Model", key := "ReuseFactor", value := CfgValue.int 5 },
       { scope := "Model", key := "ReuseFactor", value := CfgValue.int 7 }]
      [("Model", [("ReuseFactor", CfgValue.int 1)]),
       ("q_dense", [("ReuseFactor", CfgValue.int 2)])]
      [("Model", [("ReuseFactor", CfgValue.int 7)]),
       ("q_dense", [("ReuseFactor", CfgValue.int 2)])]
      (by rfl) "q_dense" "ReuseFactor").2 (by decide)⟩

/-- Claim C3: the global `'AP_RND'` rounding and `'AP_SAT'` saturation
setting for the activation-layer class is process-wide converter state:
writing it never touches the Configuration Dictionary and records into
the optimizer globals instead; in the notebook's sequential execution
all three optimizer writes precede the conversion step, so the
conversion runs with layers `['Activation']`, rounding `'AP_RND'`,
saturation `'AP_SAT'` in effect. -/
theorem c3_rounding_saturation_global_before_convert :
    (∀ (auto : KerasCfg) (st : NotebookState) (m : String),
        (NotebookStep.run auto st (NotebookStep.setOptRounding m)).cfg = st.cfg ∧
        (NotebookStep.run auto st (NotebookStep.setOptRounding m)).opt.rounding_mode = some m) ∧
    (∀ (auto : KerasCfg) (st : NotebookState) (m : String),
        (NotebookStep.run auto st (NotebookStep.setOptSaturation m)).cfg = st.cfg ∧
        (NotebookStep.run auto st (NotebookStep.setOptSaturation m)).opt.saturation_mode = some m) ∧
    (∀ (auto : KerasCfg) (st : NotebookState) (ls : List String),
        (NotebookStep.run auto st (NotebookStep.setOptLayers ls)).cfg = st.cfg) ∧
    notebookSteps.filter (fun s => s.isOptWrite || s.isConvert) =
      [NotebookStep.setOptLayers ["Activation"],
       NotebookStep.setOptRounding "AP_RND",
       NotebookStep.setOptSaturation "AP_SAT",
       NotebookStep.convert] ∧
    (∀ auto : KerasCfg,
        (runNotebook auto).convertedWith.map Prod.fst =
          some { layers := ["Activation"], rounding_mode := some "AP_RND",
                 saturation_mode := some "AP_SAT" }) :=
  ⟨fun _ _ _ => ⟨rfl, rfl⟩,
   fun _ _ _ => ⟨rfl, rfl⟩,
   fun _ _ _ => rfl,
   by decide,
   fun _ => rfl⟩

/-- Claim C4: the Config Builder applies exactly the fixed override
sequence of the notebook, in order — the global Model-scope write of
precision `ap_fixed<16,6>`, reuse factor 1 and strategy `Resource`,
then `ReuseFactor = 112` for `q_dense`, then `Strategy = 'Latency'` for
`q_dense_1`, then `Strategy = 'Stable'` for `activation_2` — and on any
auto-derived dictionary containing those three layers the writes
succeed and land those values. -/
theorem c4_fixed_override_sequence (auto : KerasCfg) (s₁ s₂ s₃ : Settings)
    (h1 : lookupKey auto.layerName "q_dense" = some s₁)
    (h2 : lookupKey auto.layerName "q_dense_1" = some s₂)
    (h3 : lookupKey auto.layerName "activation_2" = some s₃) :
    notebookSteps.filterMap NotebookStep.cfgWriteOf = cfgOverrides ∧
    cfgOverrides =
      [CfgWrite.setModel
          [("Precision", CfgValue.str "ap_fixed<16,6>"),
           ("ReuseFactor", CfgValue.int 1),
           ("Strategy", CfgValue.str "Resource")],
       CfgWrite.setLayerKey "q_dense" "ReuseFactor" (CfgValue.int 112),
       CfgWrite.setLayerKey "q_dense_1" "Strategy" (CfgValue.str "Latency"),
       CfgWrite.setLayerKey "activation_2" "Strategy" (CfgValue.str "Stable")] ∧
    ∃ c', applyCfgWrites auto cfgOverrides = some c' ∧
      c'.model =
        [("Precision", CfgValue.str "ap_fixed<16,6>"),
         ("ReuseFactor", CfgValue.int 1),
         ("Strategy", CfgValue.str "Resource")] ∧
      lookupLayerKey c' "q_dense" "ReuseFactor" = some (CfgValue.int 112) ∧
      lookupLayerKey c' "q_dense_1" "Strategy" = some (CfgValue.str "Latency") ∧
      lookupLayerKey c' "activation_2" "Strategy" = some (CfgValue.str "Stable") := by
  have n21 : ("q_dense_1" : String) ≠ "q_dense" := by decide
  have n12 : ("q_dense" : String) ≠ "q_dense_1" := by decide
  have n31 : ("activation_2" : String) ≠ "q_dense" := by decide
  have n13 : ("q_dense" : String) ≠ "activation_2" := by decide
  have n32 : ("activation_2" : String) ≠ "q_dense_1" := by decide
  have n23 : ("q_dense_1" : String) ≠ "activation_2" := by decide
  refine ⟨by decide, rfl,
    ⟨{ model :=
        [("Precision", CfgValue.str "ap_fixed<16,6>"),
         ("ReuseFactor", CfgValue.int 1),
         ("Strategy", CfgValue.str "Resource")],
       layerName :=
        setKey (setKey (setKey auto.layerName
            "q_dense" (pyDictSet s₁ "ReuseFactor" (CfgValue.int 112)))
            "q_dense_1" (pyDictSet s₂ "Strategy" (CfgValue.str "Latency")))
            "activation_2" (pyDictSet s₃ "Strategy" (CfgValue.str "Stable")) },
     ?_, rfl, ?_, ?_, ?_⟩⟩
  · simp [cfgOverrides, applyCfgWrites, CfgWrite.apply,
          lookupKey_setKey, h1, h2, h3, n21, n31, n32]
  · simp [lookupLayerKey, lookupKey_setKey, lookupKey_pyDictSet,
          h1, n13, n12]
  · simp [lookupLayerKey, lookupKey_setKey, lookupKey_pyDictSet,
          h2, n23]
  · simp [lookupLayerKey, lookupKey_setKey, lookupKey_pyDictSet, h3]

/-- Witness for C4: the override sequence applied to a concrete
three-layer auto-derived dictionary. -/
theorem c4_fixed_override_sequence_witness :
    notebookSteps.filterMap NotebookStep.cfgWriteOf = cfgOverrides ∧
    ∃ c', applyCfgWrites
        { model := [("Precision", CfgValue.str "ap_fixed<6,1>")],
          layerName :=
            [("q_dense", [("ReuseFactor", CfgValue.int 1)]),
             ("q_dense_1", [("ReuseFactor", CfgValue.int 1)]),
             ("activation_2", [("ReuseFactor", CfgValue.int 1)])] }
        cfgOverrides = some c' ∧
      c'.model =
        [("Precision", CfgValue.str "ap_fixed<16,6>"),
         ("ReuseFactor", CfgValue.int 1),
         ("Strategy", CfgValue.str "Resource")] ∧
      lookupLayerKey c' "q_dense" "ReuseFactor" = some (CfgValue.int 112) ∧
      lookupLayerKey c' "q_dense_1" "Strategy" = some (CfgValue.str "Latency") ∧
      lookupLayerKey c' "activation_2" "Strategy" = some (CfgValue.str "Stable") := by
  have h := c4_fixed_override_sequence
    { model := [("Precision", CfgValue.str "ap_fixed<6,1>")],
      layerName :=
        [("q_dense", [("ReuseFactor", CfgValue.int 1)]),
         ("q_dense_1", [("ReuseFactor", CfgValue.int 1)]),
         ("activation_2", [("ReuseFactor", CfgValue.int 1)])] }
    [("ReuseFactor", CfgValue.int 1)]
    [("ReuseFactor", CfgValue.int 1)]
    [("ReuseFactor", CfgValue.int 1)]
    (by decide) (by decide) (by decide)
  exact ⟨h.1, h.2.2⟩

/-- Claim C7: the Synthesizer is invoked once, through the project
handle's build call with its four boolean flags, and in this workflow
they are `csim=False, synth=True, vsynth=True, export=False`. -/
theorem c7_synthesizer_flags :
    notebookSteps.filter NotebookStep.isBuild =
      [NotebookStep.buildProject false true true false] ∧
    ∀ auto : KerasCfg,
      (runNotebook auto).buildFlags = some (false, true, true, false) :=
  ⟨by decide, fun _ => rfl⟩

/-- Claim C5: parsing the checked-in fixture synthesis report recovers
the exact Used / Available / Util% figures it contains: the CLB LUTs
row parses to Used = 50888, Available = 1728000, Util% = 2.94, and the
whole CLB Logic section parses to exactly the figures printed in the
fixture. -/
theorem c5_fixture_report_parse :
    parseUtilRow clbLutsLine =
      some { siteType := "CLB LUTs*", used := 50888, fixed := 0,
             available := 1728000, utilCentiPercent := 294 } ∧
    clbLogicLines.filterMap parseUtilRow =
      [{ siteType := "CLB LUTs*", used := 50888, fixed := 0,
         available := 1728000, utilCentiPercent := 294 },
       { siteType := "LUT as Logic", used := 50536, fixed := 0,
         available := 1728000, utilCentiPercent := 292 },
       { siteType := "LUT as Memory", used := 352, fixed := 0,
         available := 791040, utilCentiPercent := 4 },
       { siteType := "CLB Registers", used := 71920, fixed := 0,
         available := 3456000, utilCentiPercent := 208 },
       { siteType := "Register as Flip Flop", used := 71920, fixed := 0,
         available := 3456000, utilCentiPercent := 208 },
       { siteType := "Register as Latch", used := 0, fixed := 0,
         available := 3456000, utilCentiPercent := 0 },
       { siteType := "CARRY8", used := 1693, fixed := 0,
         available := 216000, utilCentiPercent := 78 },
       { siteType := "F7 Muxes", used := 2027, fixed := 0,
         available := 864000, utilCentiPercent := 23 },
       { siteType := "F8 Muxes", used := 795, fixed := 0,
         available := 432000, utilCentiPercent := 18 },
       { siteType := "F9 Muxes", used := 0, fixed := 0,
         available := 216000, utilCentiPercent := 0 }] :=
  ⟨rfl, rfl⟩

/-- Claim C8 counterexample: the fixture report does not give every
section Used/Fixed/Available/Util% columns — section `8. Primitives`
has columns Ref Name / Used / Functional Category. -/
theorem c8_counterexample :
    ¬ (∀ p ∈ sectionColumns, hasUtilColumns p.2 = true) ∧
    ("Primitives", ["Ref Name", "Used", "Functional Category"]) ∈ sectionColumns ∧
    hasUtilColumns ["Ref Name", "Used", "Functional Category"] = false := by
  refine ⟨fun h => ?_, by decide, by decide⟩
  have := h ("Primitives", ["Ref Name", "Used", "Functional Category"]) (by decide)
  exact absurd this (by decide)

/-- Claim C8 (amended): the fixture report's table of contents lists
the numbered sections CLB Logic (with subsection Summary of Registers
by Type), BLOCKRAM, ARITHMETIC, I/O, CLOCK, ADVANCED, CONFIGURATION,
Primitives, Black Boxes, Instantiated Netlists, SLR Connectivity, SLR
Connectivity Matrix, SLR CLB Logic and Dedicated Block Utilization, and
SLR IO Utilization; the resource sections 1-7 and the SLR Connectivity
section list rows with Used/Fixed/Available/Util% columns, while
Primitives has Ref Name/Used/Functional Category, Black Boxes and
Instantiated Netlists have Ref Name/Used, and sections 12-14 have
per-SLR column sets. -/
theorem c8_report_structure :
    tableOfContents =
      [("1", "CLB Logic"),
       ("1.1", "Summary of Registers by Type"),
       ("2", "BLOCKRAM"),
       ("3", "ARITHMETIC"),
       ("4", "I/O"),
       ("5", "CLOCK"),
       ("6", "ADVANCED"),
       ("7", "CONFIGURATION"),
       ("8", "Primitives"),
       ("9", "Black Boxes"),
       ("10", "Instantiated Netlists"),
       ("11", "SLR Connectivity"),
       ("12", "SLR Connectivity Matrix"),
       ("13", "SLR CLB Logic and Dedicated Block Utilization"),
       ("14", "SLR IO Utilization")] ∧
    (∀ name ∈ ["CLB Logic", "BLOCKRAM", "ARITHMETIC", "I/O", "CLOCK",
               "ADVANCED", "CONFIGURATION", "SLR Connectivity"],
       (lookupKey sectionColumns name).map hasUtilColumns = some true) ∧
    lookupKey sectionColumns "Primitives" =
      some ["Ref Name", "Used", "Functional Category"] ∧
    lookupKey sectionColumns "Black Boxes" = some ["Ref Name", "Used"] ∧
    lookupKey sectionColumns "Instantiated Netlists" = some ["Ref Name", "Used"] ∧
    lookupKey sectionColumns "SLR Connectivity Matrix" =
      some ["FROM \\ TO", "SLR3", "SLR2", "SLR1", "SLR0"] ∧
    lookupKey sectionColumns "SLR CLB Logic and Dedicated Block Utilization" =
      some ["Site Type", "SLR0", "SLR1", "SLR2", "SLR3",
            "SLR0 %", "SLR1 %", "SLR2 %", "SLR3 %"] ∧
    lookupKey sectionColumns "SLR IO Utilization" =
      some ["SLR Index", "Used IOBs", "(%)IOBs", "Used IPADs",
            "(%)IPADs", "Used OPADs", "(%)OPADs", "GTs"] := by
  refine ⟨rfl, by decide, rfl, rfl, rfl, rfl, rfl, rfl⟩

/-- An accuracy score is never negative. -/
theorem accuracy_score_nonneg (a b : List Nat) : 0 ≤ accuracy_score a b :=
  div_nonneg (Nat.cast_nonneg _) (Nat.cast_nonneg _)

/-- An accuracy score never exceeds one. -/
theorem accuracy_score_le_one (a b : List Nat) : accuracy_score a b ≤ 1 := by
  unfold accuracy_score
  rcases Nat.eq_zero_or_pos a.length with h | h
  · simp [h]
  · rw [div_le_one (by exact_mod_cast h)]
    have hc : (a.zip b).countP (fun p => p.1 == p.2) ≤ a.length := by
      refine le_trans (List.countP_le_length _) ?_
      rw [List.length_zip]
      exact Nat.min_le_left _ _
    exact_mod_cast hc

/-- Claim C6: the Evaluator applies both the fixed-point emulation and
the floating-point model to the same test input, reduces each to one
classification-accuracy scalar by comparing row argmaxes against the
one-hot labels' argmaxes, each accuracy lies in [0, 1], and the
evaluation stage succeeds even when the two accuracies diverge (the
comparison is not a gate). -/
theorem c6_evaluator_comparison {α : Type} (f g : α → List Rat)
    (xs : List α) (ys : List (List Rat)) :
    (evaluate f g xs ys).1 = accuracy_score (ys.map argmax) ((xs.map g).map argmax) ∧
    (evaluate f g xs ys).2 = accuracy_score (ys.map argmax) ((xs.map f).map argmax) ∧
    (0 ≤ (evaluate f g xs ys).1 ∧ (evaluate f g xs ys).1 ≤ 1) ∧
    (0 ≤ (evaluate f g xs ys).2 ∧ (evaluate f g xs ys).2 ≤ 1) ∧
    ((evaluate f g xs ys).1 ≠ (evaluate f g xs ys).2 →
      evalStage f g xs ys = Except.ok (evaluate f g xs ys)) :=
  ⟨rfl, rfl,
   ⟨accuracy_score_nonneg _ _, accuracy_score_le_one _ _⟩,
   ⟨accuracy_score_nonneg _ _, accuracy_score_le_one _ _⟩,
   fun _ => rfl⟩

/-- Witness for C6: a concrete one-sample dataset where the
floating-point accuracy is 1, the fixed-point accuracy is 0, and the
evaluation stage still succeeds. -/
theorem c6_evaluator_comparison_witness :
    evalStage (fun _ : Nat => [(0 : Rat), 1]) (fun _ : Nat => [(1 : Rat), 0])
        [0] [[1, 0]] =
      Except.ok (evaluate (fun _ : Nat => [(0 : Rat), 1])
        (fun _ : Nat => [(1 : Rat), 0]) [0] [[1, 0]]) :=
  (c6_evaluator_comparison (fun _ : Nat => [(0 : Rat), 1])
      (fun _ : Nat => [(1 : Rat), 0]) [0] [[1, 0]]).2.2.2.2
    (by norm_num [evaluate, accuracy_score, argmax, argmaxAux])

/-- The one-hot row of `to_categorical` reads 1 at the label's index
and 0 elsewhere. -/
theorem to_categorical_get (l n j : Nat) (h : j < (to_categorical l n).length) :
    (to_categorical l n).get ⟨j, h⟩ = if j = l then 1 else 0 := by
  simp [to_categorical]

/-- Claim C9: `get_train_test_set` divides every pixel by 256.0, so
every feature of every returned sample lies in [0, 255/256] and is
strictly below 1; each sample is the flattening of its scaled 2-D
image into a one-dimensional vector, and each label is a one-hot
vector over exactly 10 classes. -/
theorem c9_train_test_set (raw : RawMnist)
    (hpix : ∀ img ∈ raw.xTrain ++ raw.xTest, ∀ row ∈ img, ∀ p ∈ row, p ≤ 255)
    (hlab : ∀ l ∈ raw.yTrain ++ raw.yTest, l < 10) :
    ((get_train_test_set raw).1.1 =
        raw.xTrain.map (fun img => (scaleImage img).flatten) ∧
     (get_train_test_set raw).2.1 =
        raw.xTest.map (fun img => (scaleImage img).flatten)) ∧
    (∀ s ∈ (get_train_test_set raw).1.1 ++ (get_train_test_set raw).2.1,
        ∀ v ∈ s, 0 ≤ v ∧ v ≤ 255 / 256 ∧ v < 1) ∧
    (∀ y ∈ (get_train_test_set raw).1.2 ++ (get_train_test_set raw).2.2,
        y.length = 10 ∧ ∃ i, i < 10 ∧
          ∀ j, ∀ hj : j < y.length, y.get ⟨j, hj⟩ = if j = i then 1 else 0) := by
  refine ⟨⟨by simp [get_train_test_set], by simp [get_train_test_set]⟩, ?_, ?_⟩
  · intro s hs v hv
    have himg : ∃ img, (img ∈ raw.xTrain ++ raw.xTest) ∧ s = (scaleImage img).flatten := by
      simp only [get_train_test_set, List.mem_append, List.mem_map] at hs
      rcases hs with ⟨t, ⟨img, hi, ht⟩, hts⟩ | ⟨t, ⟨img, hi, ht⟩, hts⟩
      · exact ⟨img, List.mem_append.mpr (Or.inl hi), by rw [← hts, ← ht]⟩
      · exact ⟨img, List.mem_append.mpr (Or.inr hi), by rw [← hts, ← ht]⟩
    obtain ⟨img, himem, rfl⟩ := himg
    obtain ⟨rowq, hrowq, hvrow⟩ := List.mem_flatten.mp hv
    obtain ⟨row, hrow, hrowe⟩ := List.mem_map.mp hrowq
    obtain ⟨p, hp, hpv⟩ := List.mem_map.mp (hrowe ▸ hvrow)
    have hple : p ≤ 255 := hpix img himem row hrow p hp
    subst hpv
    refine ⟨by unfold scalePixel; positivity, ?_, ?_⟩
    · unfold scalePixel
      gcongr
      exact_mod_cast hple
    · unfold scalePixel
      calc (p : Rat) / 256 ≤ 255 / 256 := by gcongr; exact_mod_cast hple
        _ < 1 := by norm_num
  · intro y hy
    have hlbl : ∃ l, (l ∈ raw.yTrain ++ raw.yTest) ∧ y = to_categorical l 10 := by
      simp only [get_train_test_set, List.mem_append, List.mem_map] at hy
      rcases hy with ⟨l, hl, hyl⟩ | ⟨l, hl, hyl⟩
      · exact ⟨l, List.mem_append.mpr (Or.inl hl), hyl.symm⟩
      · exact ⟨l, List.mem_append.mpr (Or.inr hl), hyl.symm⟩
    obtain ⟨l, hl, rfl⟩ := hlbl
    refine ⟨by simp [to_categorical], l, hlab l hl, ?_⟩
    intro j hj
    exact to_categorical_get l 10 j hj

/-- Witness for C9: on a concrete dataset the scaled pixel 255 maps to
255/256, within [0, 255/256] and strictly below one. -/
theorem c9_train_test_set_witness :
    0 ≤ scalePixel 255 ∧ scalePixel 255 ≤ 255 / 256 ∧ scalePixel 255 < 1 :=
  (c9_train_test_set
      { xTrain := [[[0, 255]]], yTrain := [3], xTest := [[[128]]], yTest := [9] }
      (by decide) (by decide)).2.1
    [scalePixel 0, scalePixel 255]
    (List.mem_append_left _ (List.Mem.head _))
    (scalePixel 255) (List.Mem.tail _ (List.Mem.head _))

/-- Claim C10: `print_dict` terminates and raises no error on every
finite, acyclic dictionary with string keys: it prints exactly one
key-bearing line per entry at every nesting level, recurses only on
strictly nested sub-dictionaries with `indent + 1`, and Python's
`' ' * (20 - len(key) - 2*indent)` padding is the empty string, not an
error, when the factor is negative. -/
theorem c10_print_dict_total :
    (∀ (d : List (String × PyVal)) (i : Nat), (print_dict d i).length = entryCount d) ∧
    (∀ (key : String) (sub rest : List (String × PyVal)) (i : Nat),
        print_dict ((key, PyVal.dict sub) :: rest) i =
          (pyStrRepeat "  " (Int.ofNat i) ++ key) ::
            (print_dict sub (i + 1) ++ print_dict rest i)) ∧
    (∀ (s : String) (n : Int), n < 0 → pyStrRepeat s n = "") := by
  refine ⟨?_, ?_, ?_⟩
  · intro d i
    induction d, i using print_dict.induct with
    | case1 => simp [print_dict, entryCount]
    | case2 key v rest indent ih =>
      simp [print_dict, entryCount, ih]
      omega
    | case3 key sub rest indent ih1 ih2 =>
      simp [print_dict, entryCount, ih1, ih2]
      omega
  · intro key sub rest i
    simp [print_dict]
  · intro s n hn
    unfold pyStrRepeat
    rw [Int.toNat_of_nonpos (le_of_lt hn)]
    rfl

/-- Witness for C10: a concrete nested dictionary prints one line per
entry, and a negative padding factor yields the empty string. -/
theorem c10_print_dict_total_witness :
    (print_dict [("OutputDir", PyVal.scalar "prj"),
                 ("LayerName", PyVal.dict [("q_dense", PyVal.scalar "cfg")])] 0).length =
      entryCount [("OutputDir", PyVal.scalar "prj"),
                  ("LayerName", PyVal.dict [("q_dense", PyVal.scalar "cfg")])] ∧
    pyStrRepeat " " (-3) = "" :=
  ⟨c10_print_dict_total.1
     [("OutputDir", PyVal.scalar "prj"),
      ("LayerName", PyVal.dict [("q_dense", PyVal.scalar "cfg")])] 0,
   c10_print_dict_total.2.2 " " (-3) (by decide)⟩

end S4
